import Mathlib

/-!
Shallow embedding of the ncart-backend server (src/app.js): the credential
store, token service, and order lifecycle handlers, as pure functions over an
explicit database state.  External libraries (bcryptjs, jsonwebtoken) are
modelled by executable functions satisfying their documented contracts; the
MongoDB/Mongoose operations (findOne, findById, findOneAndUpdate,
findByIdAndUpdate, $set with undefined-stripping, $inc) are modelled over
lists of documents.
-/

namespace NCart

/-- Model of bcryptjs hash with 10 rounds: a deterministic one-way encoding.
(The salt plays no role in any verified property; compare re-derives the
hash from the candidate password, as bcrypt.compare does.) -/
def bcryptHash (p : String) : String := "bc10" ++ "$" ++ p

/-- Model of bcrypt.compare(password, storedHash). -/
def bcryptCompare (p h : String) : Bool := h == bcryptHash p

/-- The claim set embedded in every token issued by app.js:
jwt.sign({ userId: user._id, email: user.email }, ...). -/
structure JwtPayload where
  userId : String
  email : String
deriving Repr, DecidableEq

/-- Model of a signed JWT: claims, issued-at and expiry instants (seconds),
and a signature over all of them with the server secret. -/
structure Jwt where
  payload : JwtPayload
  iat : Nat
  exp : Nat
  sig : String
deriving Repr, DecidableEq

/-- Model of the HMAC signature over the serialized claims. -/
def jwtSig (secret : String) (p : JwtPayload) (iat exp : Nat) : String :=
  secret ++ "|" ++ p.userId ++ "|" ++ p.email ++ "|" ++ toString iat ++ "|" ++ toString exp

/-- jwt.sign(payload, JWT_SECRET, { expiresIn: '24h' }) at time `now`
(seconds): expiry is fixed at issuance + 24h. -/
def jwtSign (secret : String) (p : JwtPayload) (now : Nat) : Jwt :=
  { payload := p, iat := now, exp := now + 24 * 3600,
    sig := jwtSig secret p now (now + 24 * 3600) }

inductive JwtError where
  | invalid
  | expired
deriving Repr, DecidableEq

/-- jwt.verify(token, JWT_SECRET) at time `now`: rejects a bad signature,
then rejects an elapsed expiry (jsonwebtoken fails when now >= exp);
otherwise returns the embedded claims.  No other check is time-based. -/
def jwtVerify (secret : String) (t : Jwt) (now : Nat) : Except JwtError JwtPayload :=
  if t.sig ≠ jwtSig secret t.payload t.iat t.exp then .error .invalid
  else if t.exp ≤ now then .error .expired
  else .ok t.payload

/-- User document (User schema in app.js).  `mongoId` stands for the
store-generated `_id`; `orders` is the denormalized order count
(default 0); `password` holds the bcrypt hash. -/
structure User where
  mongoId : String
  firstName : String
  lastName : String
  email : String
  password : String
  phone : String
  dateOfBirth : String
  gender : String
  address : String
  city : String
  state : String
  zipCode : String
  country : String
  orders : Nat
  profileImage : Option String
  createdAt : Nat
deriving Repr, DecidableEq

/-- Cancellation sub-document of an order (reason, comment, cancelledAt);
all fields optional in the schema.  The same shape serves as the
client-supplied `cancellationReason` body field, whose `cancelledAt`
a client may or may not attempt to supply. -/
structure Cancellation where
  reason : Option String
  comment : Option String
  cancelledAt : Option Nat
deriving Repr, DecidableEq

/-- Order document (Order schema in app.js).  `mongoId` stands for the
store-generated `_id`; `id` is the client-supplied order identifier;
`date` is an opaque string; `items` and `tracking` are opaque payloads. -/
structure Order where
  mongoId : Nat
  userId : String
  id : String
  date : String
  items : List String
  total : Int
  status : String
  tracking : Option String
  paymentMethod : String
  address : String
  cancellationReason : Option Cancellation
deriving Repr, DecidableEq

/-- The persistent state: the users and orders collections. -/
structure DB where
  users : List User
  orders : List Order
deriving Repr, DecidableEq

/-- An HTTP error response: status code plus the `error` message field. -/
structure HttpError where
  status : Nat
  error : String
deriving Repr, DecidableEq

/-- MongoDB updates one document per findOneAndUpdate/findByIdAndUpdate
call: apply `f` to the first element satisfying `p`. -/
def updateFirstBy (p : α → Bool) (f : α → α) : List α → List α
  | [] => []
  | x :: xs => if p x then f x :: xs else x :: updateFirstBy p f xs

/-- User.findOne({ email }). -/
def findUserByEmail (db : DB) (email : String) : Option User :=
  db.users.find? (fun u => u.email == email)

/-- User.findById(uid). -/
def findUserById (db : DB) (uid : String) : Option User :=
  db.users.find? (fun u => u.mongoId == uid)

/-- Request body of POST /api/register (the fields the handler destructures). -/
structure RegisterBody where
  firstName : String
  lastName : String
  email : String
  password : String
  phone : String
  dateOfBirth : String
  gender : String
  address : String
  city : String
  state : String
  zipCode : String
  country : String
deriving Repr, DecidableEq

/-- The user document persisted by POST /api/register: profile fields from
the body, the bcrypt hash of the password, order count 0. -/
def regUser (body : RegisterBody) (now : Nat) (newId : String) : User :=
  { mongoId := newId, firstName := body.firstName, lastName := body.lastName,
    email := body.email, password := bcryptHash body.password, phone := body.phone,
    dateOfBirth := body.dateOfBirth, gender := body.gender, address := body.address,
    city := body.city, state := body.state, zipCode := body.zipCode,
    country := body.country, orders := 0, profileImage := none, createdAt := now }

/-- POST /api/register: reject a duplicate email with 400, otherwise persist
the user with a hashed password and order count 0 and return a fresh token.
`newId` stands for the store-generated user id, `now` for the server time. -/
def register (db : DB) (body : RegisterBody) (secret : String) (now : Nat) (newId : String) :
    Except HttpError (Jwt × User) × DB :=
  match findUserByEmail db body.email with
  | some _ => (.error ⟨400, "User already exists with this email"⟩, db)
  | none =>
    (.ok (jwtSign secret ⟨newId, body.email⟩ now, regUser body now newId),
     { db with users := db.users ++ [regUser body now newId] })

/-- POST /api/login: find the user by email, compare the password against the
stored hash, and issue a fresh token; both failure modes yield the same
400 response.  Reads only, so no new state is returned. -/
def login (db : DB) (email password : String) (secret : String) (now : Nat) :
    Except HttpError (Jwt × User) :=
  match findUserByEmail db email with
  | none => .error ⟨400, "Invalid email or password"⟩
  | some user =>
    if bcryptCompare password user.password then
      .ok (jwtSign secret ⟨user.mongoId, user.email⟩ now, user)
    else .error ⟨400, "Invalid email or password"⟩

/-- GET /api/user: 404 when the authenticated id no longer resolves
(the response strips the password field, which no claim depends on). -/
def getProfile (db : DB) (uid : String) : Except HttpError User :=
  match findUserById db uid with
  | none => .error ⟨404, "User not found"⟩
  | some u => .ok u

/-- Request body of PUT /api/user (the fields the handler destructures;
password, email and orders are not among them).  A `none` field was absent
from the request and is stripped from the $set document by Mongoose. -/
structure ProfilePatch where
  firstName : Option String
  lastName : Option String
  phone : Option String
  dateOfBirth : Option String
  gender : Option String
  address : Option String
  city : Option String
  state : Option String
  zipCode : Option String
  country : Option String
  profileImage : Option String
deriving Repr, DecidableEq

/-- The $set document of PUT /api/user applied to a user document: provided
fields overwrite, absent fields are left untouched. -/
def applyPatch (u : User) (p : ProfilePatch) : User :=
  { u with
    firstName := p.firstName.getD u.firstName,
    lastName := p.lastName.getD u.lastName,
    phone := p.phone.getD u.phone,
    dateOfBirth := p.dateOfBirth.getD u.dateOfBirth,
    gender := p.gender.getD u.gender,
    address := p.address.getD u.address,
    city := p.city.getD u.city,
    state := p.state.getD u.state,
    zipCode := p.zipCode.getD u.zipCode,
    country := p.country.getD u.country,
    profileImage := match p.profileImage with | some v => some v | none => u.profileImage }

/-- PUT /api/user: User.findByIdAndUpdate with the patch.  The handler has no
null check: when the id resolves to no user it sends the null result with
status 200 (res.json(updatedUser)), never 404.  Returns (status, body). -/
def updateProfile (db : DB) (uid : String) (p : ProfilePatch) :
    (Nat × Option User) × DB :=
  match findUserById db uid with
  | none => ((200, none), db)
  | some u =>
    ((200, some (applyPatch u p)),
     { db with users := updateFirstBy (fun v => v.mongoId == uid) (fun v => applyPatch v p) db.users })

/-- PUT /api/user/password: 404 when the id no longer resolves, 400 when the
supplied current password does not match the stored hash, otherwise persist
the re-hashed new password. -/
def changePassword (db : DB) (uid : String) (currentPassword newPassword : String) :
    Except HttpError Unit × DB :=
  match findUserById db uid with
  | none => (.error ⟨404, "User not found"⟩, db)
  | some u =>
    if bcryptCompare currentPassword u.password then
      let users' := updateFirstBy (fun v => v.mongoId == uid)
        (fun v => { v with password := bcryptHash newPassword }) db.users
      (.ok (), { db with users := users' })
    else (.error ⟨400, "Current password is incorrect"⟩, db)

/-- Request body of POST /api/orders.  The client may include a `userId`
(the handler overrides it) and even a `cancellationReason` (the handler
spreads the whole body into the new document). -/
structure OrderBody where
  userId : Option String
  id : String
  date : String
  items : List String
  total : Int
  status : String
  tracking : Option String
  paymentMethod : String
  address : String
  cancellationReason : Option Cancellation
deriving Repr, DecidableEq

/-- POST /api/orders: persist { ...req.body, userId: req.user.userId } as a
new order, then User.findByIdAndUpdate(caller, { $inc: { orders: 1 } }).
`newMongoId` stands for the store-generated order `_id`. -/
def createOrder (db : DB) (callerId : String) (body : OrderBody) (newMongoId : Nat) :
    Order × DB :=
  let order : Order :=
    { mongoId := newMongoId, userId := callerId, id := body.id, date := body.date,
      items := body.items, total := body.total, status := body.status,
      tracking := body.tracking, paymentMethod := body.paymentMethod,
      address := body.address, cancellationReason := body.cancellationReason }
  let users' := updateFirstBy (fun u => u.mongoId == callerId)
    (fun u => { u with orders := u.orders + 1 }) db.users
  (order, { users := users', orders := db.orders ++ [order] })

/-- Date-descending comparison used by .sort({ date: -1 }) on the opaque
date strings (byte-wise/lexical order). -/
def dateDesc (a b : Order) : Bool := decide (b.date ≤ a.date)

/-- GET /api/orders: Order.find({ userId: caller }).sort({ date: -1 }). -/
def listOrders (db : DB) (uid : String) : List Order :=
  (db.orders.filter (fun o => o.userId == uid)).mergeSort dateDesc

/-- Request body of the order status update routes.  The self-service route
destructures { status, tracking, cancellationReason }; the admin route
destructures only { status, cancellationReason } and never reads
`tracking` even when the client supplies one. -/
structure UpdateBody where
  status : Option String
  tracking : Option String
  cancellationReason : Option Cancellation
deriving Repr, DecidableEq

/-- The update document of PUT /api/orders/:id applied to an order:
$set { status, tracking } (absent fields stripped), plus — only when
status === 'Cancelled' and a cancellationReason is supplied —
{ ...cancellationReason, cancelledAt: new Date() }, whose server-assigned
cancelledAt overrides any client-supplied one. -/
def applySelfUpdate (o : Order) (body : UpdateBody) (now : Nat) : Order :=
  let o1 := { o with
    status := body.status.getD o.status,
    tracking := match body.tracking with | some t => some t | none => o.tracking }
  match body.status, body.cancellationReason with
  | some s, some c =>
    if s == "Cancelled" then
      { o1 with cancellationReason := some { c with cancelledAt := some now } }
    else o1
  | _, _ => o1

/-- PUT /api/orders/:id: Order.findOneAndUpdate scoped by BOTH the order id
and the caller (owner), 404 when no order matches both. -/
def updateOrderStatus (db : DB) (callerId : String) (orderId : Nat) (body : UpdateBody) (now : Nat) :
    Except HttpError Order × DB :=
  match db.orders.find? (fun o => o.mongoId == orderId && o.userId == callerId) with
  | none => (.error ⟨404, "Order not found"⟩, db)
  | some o =>
    let orders' := updateFirstBy (fun x => x.mongoId == orderId && x.userId == callerId)
      (fun x => applySelfUpdate x body now) db.orders
    (.ok (applySelfUpdate o body now), { db with orders := orders' })

/-- The update document of PUT /api/admin/orders/:id applied to an order:
$set { status } only (tracking is never part of it), plus the same
conditional cancellation record as the self-service route. -/
def applyAdminUpdate (o : Order) (body : UpdateBody) (now : Nat) : Order :=
  let o1 := { o with status := body.status.getD o.status }
  match body.status, body.cancellationReason with
  | some s, some c =>
    if s == "Cancelled" then
      { o1 with cancellationReason := some { c with cancelledAt := some now } }
    else o1
  | _, _ => o1

/-- PUT /api/admin/orders/:id: Order.findByIdAndUpdate — any order id may be
targeted, no ownership scope. -/
def adminUpdateOrder (db : DB) (orderId : Nat) (body : UpdateBody) (now : Nat) :
    Except HttpError Order × DB :=
  match db.orders.find? (fun o => o.mongoId == orderId) with
  | none => (.error ⟨404, "Order not found"⟩, db)
  | some o =>
    let orders' := updateFirstBy (fun x => x.mongoId == orderId)
      (fun x => applyAdminUpdate x body now) db.orders
    (.ok (applyAdminUpdate o body now), { db with orders := orders' })

/-! ## Concrete fixtures used by witnesses and counterexamples -/

def emptyDB : DB := { users := [], orders := [] }

/-- A user on record: password hash of "pw1", 0 orders. -/
def wUser : User :=
  { mongoId := "u1", firstName := "A", lastName := "B", email := "a@x.com",
    password := bcryptHash "pw1", phone := "1", dateOfBirth := "2000-01-01",
    gender := "f", address := "addr", city := "c", state := "s", zipCode := "z",
    country := "in", orders := 0, profileImage := none, createdAt := 0 }

/-- An order owned by wUser, still pending, no cancellation record. -/
def wOrder : Order :=
  { mongoId := 1, userId := "u1", id := "ORD-1", date := "2024-01-01", items := ["p1"],
    total := 100, status := "Pending", tracking := some "t0", paymentMethod := "card",
    address := "addr", cancellationReason := none }

def wDB : DB := { users := [wUser], orders := [wOrder] }

/-- A cancelling update whose client even tries to smuggle a cancelledAt of 999. -/
def wCancelBody : UpdateBody :=
  { status := some "Cancelled", tracking := none,
    cancellationReason := some { reason := some "r", comment := some "c", cancelledAt := some 999 } }

/-- A non-cancelling update that supplies a tracking value. -/
def wTrackBody : UpdateBody :=
  { status := some "Shipped", tracking := some "t1", cancellationReason := none }

/-- An order-creation body that tries to set its own userId. -/
def wOrderBody : OrderBody :=
  { userId := some "attacker", id := "ORD-2", date := "2024-02-02", items := [],
    total := 5, status := "Pending", tracking := none, paymentMethod := "cod",
    address := "a", cancellationReason := none }

def wRegBody : RegisterBody :=
  { firstName := "C", lastName := "D", email := "b@x.com", password := "pw",
    phone := "2", dateOfBirth := "1999-09-09", gender := "m", address := "ad",
    city := "ci", state := "st", zipCode := "zi", country := "co" }

/-- The store produced by registering wRegBody on an empty store. -/
def wRegDB : DB := { users := [regUser wRegBody 0 "u9"], orders := [] }

/-- A profile patch touching one field. -/
def wPatch : ProfilePatch :=
  { firstName := some "X", lastName := none, phone := none, dateOfBirth := none,
    gender := none, address := none, city := none, state := none, zipCode := none,
    country := none, profileImage := none }

/-- An order-creation body that smuggles in a complete cancellation record
(client-chosen cancelledAt 999) while the status is "Pending". -/
def cexSmuggleBody : OrderBody :=
  { userId := none, id := "ORD-9", date := "2024-03-03", items := [], total := 1,
    status := "Pending", tracking := none, paymentMethod := "cod", address := "a",
    cancellationReason := some { reason := some "rr", comment := some "cc", cancelledAt := some 999 } }

/-- Cancelling with a reason (no client timestamp). -/
def cexCancelBody : UpdateBody :=
  { status := some "Cancelled", tracking := none,
    cancellationReason := some { reason := some "r", comment := some "c", cancelledAt := none } }

/-- Moving the status away from "Cancelled" without any reason. -/
def cexShipBody : UpdateBody :=
  { status := some "Shipped", tracking := none, cancellationReason := none }

/-- The body of the order created for the counterexample run. -/
def cexOrderBody : OrderBody :=
  { userId := none, id := "ORD-1", date := "2024-01-01", items := ["p1"], total := 100,
    status := "Pending", tracking := some "t0", paymentMethod := "card", address := "addr",
    cancellationReason := none }

/-- State after u1 creates the order. -/
def cexDB0 : DB := (createOrder { users := [wUser], orders := [] } "u1" cexOrderBody 1).2

/-- State after u1 cancels it with a reason at server time 100. -/
def cexDB1 : DB := (updateOrderStatus cexDB0 "u1" 1 cexCancelBody 100).2

/-- State after the status is then moved to "Shipped" at server time 200. -/
def cexDB2 : DB := (updateOrderStatus cexDB1 "u1" 1 cexShipBody 200).2

/-! ## General lemmas about the one-document update model -/

theorem updateFirstBy_find?_self {α} {p : α → Bool} {f : α → α} {l : List α} {a : α}
    (h : l.find? p = some a) (hf : p (f a) = true) :
    (updateFirstBy p f l).find? p = some (f a) := by
  induction l with
  | nil => simp at h
  | cons x xs ih =>
    by_cases hx : p x = true
    · rw [List.find?_cons_of_pos _ hx] at h
      cases h
      rw [show updateFirstBy p f (a :: xs) = f a :: xs by simp [updateFirstBy, hx]]
      exact List.find?_cons_of_pos _ hf
    · rw [List.find?_cons_of_neg _ hx] at h
      rw [show updateFirstBy p f (x :: xs) = x :: updateFirstBy p f xs by
        simp [updateFirstBy, hx]]
      rw [List.find?_cons_of_neg _ hx]
      exact ih h

theorem updateFirstBy_find?_other {α} {p q : α → Bool} {f : α → α} {l : List α}
    (h : ∀ x, p x = true → q x = false ∧ q (f x) = false) :
    (updateFirstBy p f l).find? q = l.find? q := by
  induction l with
  | nil => rfl
  | cons x xs ih =>
    by_cases hx : p x = true
    · obtain ⟨h1, h2⟩ := h x hx
      rw [show updateFirstBy p f (x :: xs) = f x :: xs by simp [updateFirstBy, hx]]
      rw [List.find?_cons_of_neg _ (by simp [h2]), List.find?_cons_of_neg _ (by simp [h1])]
    · rw [show updateFirstBy p f (x :: xs) = x :: updateFirstBy p f xs by
        simp [updateFirstBy, hx]]
      by_cases hq : q x = true
      · rw [List.find?_cons_of_pos _ hq, List.find?_cons_of_pos _ hq]
      · rw [List.find?_cons_of_neg _ hq, List.find?_cons_of_neg _ hq]
        exact ih

theorem updateFirstBy_map_eq {α β} {p : α → Bool} {f : α → α} (g : α → β) {l : List α}
    (h : ∀ x, g (f x) = g x) :
    (updateFirstBy p f l).map g = l.map g := by
  induction l with
  | nil => rfl
  | cons x xs ih =>
    by_cases hx : p x = true <;> simp [updateFirstBy, hx, h, ih]

/-! ## Field-preservation facts about the two order update documents -/

theorem applySelfUpdate_mongoId (o : Order) (body : UpdateBody) (now : Nat) :
    (applySelfUpdate o body now).mongoId = o.mongoId := by
  unfold applySelfUpdate
  cases body.status <;> cases body.cancellationReason <;> simp <;> split <;> rfl

theorem applySelfUpdate_userId (o : Order) (body : UpdateBody) (now : Nat) :
    (applySelfUpdate o body now).userId = o.userId := by
  unfold applySelfUpdate
  cases body.status <;> cases body.cancellationReason <;> simp <;> split <;> rfl

theorem applySelfUpdate_tracking (o : Order) (body : UpdateBody) (now : Nat) :
    (applySelfUpdate o body now).tracking =
      match body.tracking with | some t => some t | none => o.tracking := by
  unfold applySelfUpdate
  cases body.status <;> cases body.cancellationReason <;> simp <;> split <;> rfl

theorem applyAdminUpdate_mongoId (o : Order) (body : UpdateBody) (now : Nat) :
    (applyAdminUpdate o body now).mongoId = o.mongoId := by
  unfold applyAdminUpdate
  cases body.status <;> cases body.cancellationReason <;> simp <;> split <;> rfl

theorem applyAdminUpdate_tracking (o : Order) (body : UpdateBody) (now : Nat) :
    (applyAdminUpdate o body now).tracking = o.tracking := by
  unfold applyAdminUpdate
  cases body.status <;> cases body.cancellationReason <;> simp <;> split <;> rfl

theorem applySelfUpdate_cancellation (o : Order) (body : UpdateBody) (now : Nat) :
    (applySelfUpdate o body now).cancellationReason =
      match body.status, body.cancellationReason with
      | some s, some c =>
        if s == "Cancelled" then some { c with cancelledAt := some now }
        else o.cancellationReason
      | _, _ => o.cancellationReason := by
  unfold applySelfUpdate
  cases body.status <;> cases body.cancellationReason <;> simp <;> split <;> rfl

theorem applyAdminUpdate_cancellation (o : Order) (body : UpdateBody) (now : Nat) :
    (applyAdminUpdate o body now).cancellationReason =
      match body.status, body.cancellationReason with
      | some s, some c =>
        if s == "Cancelled" then some { c with cancelledAt := some now }
        else o.cancellationReason
      | _, _ => o.cancellationReason := by
  unfold applyAdminUpdate
  cases body.status <;> cases body.cancellationReason <;> simp <;> split <;> rfl

/-! ## Reduction lemmas for the handlers on a successful lookup -/

theorem updateOrderStatus_found_fst {db : DB} {callerId : String} {orderId : Nat}
    {body : UpdateBody} {now : Nat} {o : Order}
    (h : db.orders.find? (fun x => x.mongoId == orderId && x.userId == callerId) = some o) :
    (updateOrderStatus db callerId orderId body now).1 = .ok (applySelfUpdate o body now) := by
  unfold updateOrderStatus
  rw [h]

theorem updateOrderStatus_found_orders {db : DB} {callerId : String} {orderId : Nat}
    {body : UpdateBody} {now : Nat} {o : Order}
    (h : db.orders.find? (fun x => x.mongoId == orderId && x.userId == callerId) = some o) :
    (updateOrderStatus db callerId orderId body now).2.orders =
      updateFirstBy (fun x => x.mongoId == orderId && x.userId == callerId)
        (fun x => applySelfUpdate x body now) db.orders := by
  unfold updateOrderStatus
  rw [h]

theorem adminUpdateOrder_found_fst {db : DB} {orderId : Nat}
    {body : UpdateBody} {now : Nat} {o : Order}
    (h : db.orders.find? (fun x => x.mongoId == orderId) = some o) :
    (adminUpdateOrder db orderId body now).1 = .ok (applyAdminUpdate o body now) := by
  unfold adminUpdateOrder
  rw [h]

theorem adminUpdateOrder_found_orders {db : DB} {orderId : Nat}
    {body : UpdateBody} {now : Nat} {o : Order}
    (h : db.orders.find? (fun x => x.mongoId == orderId) = some o) :
    (adminUpdateOrder db orderId body now).2.orders =
      updateFirstBy (fun x => x.mongoId == orderId)
        (fun x => applyAdminUpdate x body now) db.orders := by
  unfold adminUpdateOrder
  rw [h]

/-! ## Claim theorems -/

/-- Verification of a token signed with the same secret succeeds exactly
before its 24h expiry. -/
theorem jwtVerify_jwtSign_iff (secret : String) (p : JwtPayload) (T now : Nat) :
    jwtVerify secret (jwtSign secret p T) now = .ok p ↔ now < T + 24 * 3600 := by
  by_cases h : T + 24 * 3600 ≤ now
  · simp only [jwtVerify, jwtSign, ne_eq, not_true_eq_false, if_false, if_pos h]
    constructor
    · intro hcontra
      cases hcontra
    · intro hlt
      omega
  · simp only [jwtVerify, jwtSign, ne_eq, not_true_eq_false, if_false, if_neg h]
    constructor
    · intro _
      omega
    · intro _
      trivial

/-- C6: a token issued at time T verifies successfully (yielding the embedded
user id and email) exactly when the check happens before T + 24h; at or
after T + 24h verification fails, and — the check being an iff over every
`now` — expiry is the only time-dependent condition in `jwtVerify`. -/
theorem jwt_expiry_window (secret : String) (p : JwtPayload) (T now : Nat) :
    jwtVerify secret (jwtSign secret p T) now = .ok p ↔ now < T + 24 * 3600 :=
  jwtVerify_jwtSign_iff secret p T now

/-- C8: GET /api/orders returns exactly the caller's orders — every returned
order is owned by the caller, the result is a permutation of the owner's
orders in the store — sorted by the stored date string in descending
(reverse-lexical) order. -/
theorem listOrders_spec (db : DB) (uid : String) :
    (∀ o ∈ listOrders db uid, o.userId = uid) ∧
    List.Perm (listOrders db uid) (db.orders.filter (fun o => o.userId == uid)) ∧
    List.Pairwise (fun a b : Order => b.date ≤ a.date) (listOrders db uid) := by
  have hperm : List.Perm (listOrders db uid) (db.orders.filter (fun o => o.userId == uid)) := by
    unfold listOrders
    exact List.mergeSort_perm _ _
  refine ⟨?_, hperm, ?_⟩
  · intro o ho
    have hmem : o ∈ db.orders.filter (fun o => o.userId == uid) := hperm.mem_iff.mp ho
    simpa using List.of_mem_filter hmem
  · have htrans : ∀ a b c : Order, dateDesc a b = true → dateDesc b c = true →
        dateDesc a c = true := by
      intro a b c hab hbc
      simp only [dateDesc, decide_eq_true_eq] at hab hbc ⊢
      exact le_trans hbc hab
    have htotal : ∀ a b : Order, (dateDesc a b || dateDesc b a) = true := by
      intro a b
      simp only [dateDesc, Bool.or_eq_true, decide_eq_true_eq]
      exact le_total b.date a.date
    have hs := @List.sorted_mergeSort Order dateDesc htrans htotal
      (db.orders.filter (fun o => o.userId == uid))
    unfold listOrders
    exact hs.imp (fun hab => by simpa [dateDesc] using hab)

/-- C1: on a self-service status update (PUT /api/orders/:id) of an order the
caller owns: when the new status is "Cancelled" and a cancellationReason is
supplied, the stored cancellation record is exactly the supplied reason and
comment with cancelledAt set to the server time of the call — whatever
cancelledAt the client supplied and whatever record was there before; when
the new status is "Cancelled" and no reason is supplied, the order's
cancellation record is left exactly as it was. -/
theorem selfUpdate_cancelled_record (db : DB) (callerId : String) (orderId : Nat)
    (body : UpdateBody) (now : Nat) (o : Order)
    (hfind : db.orders.find? (fun x => x.mongoId == orderId && x.userId == callerId) = some o) :
    ∃ o', (updateOrderStatus db callerId orderId body now).1 = .ok o' ∧
      (updateOrderStatus db callerId orderId body now).2.orders.find?
        (fun x => x.mongoId == orderId && x.userId == callerId) = some o' ∧
      (∀ c, body.status = some "Cancelled" → body.cancellationReason = some c →
        o'.cancellationReason = some ⟨c.reason, c.comment, some now⟩) ∧
      (body.status = some "Cancelled" → body.cancellationReason = none →
        o'.cancellationReason = o.cancellationReason) := by
  have hpo := List.find?_some hfind
  refine ⟨applySelfUpdate o body now, updateOrderStatus_found_fst hfind, ?_, ?_, ?_⟩
  · rw [updateOrderStatus_found_orders hfind]
    apply updateFirstBy_find?_self hfind
    simpa [applySelfUpdate_mongoId, applySelfUpdate_userId] using hpo
  · intro c hs hc
    rw [applySelfUpdate_cancellation, hs, hc]
    rfl
  · intro hs hc
    rw [applySelfUpdate_cancellation, hs, hc]

/-- Witness for C1 on concrete data: cancelling order 1 of user u1 at server
time 100 with reason "r", comment "c" and a client-smuggled cancelledAt of
999 stores the record ⟨"r", "c", 100⟩. -/
theorem selfUpdate_cancelled_record_witness :
    ∃ o', (updateOrderStatus wDB "u1" 1 wCancelBody 100).1 = .ok o' ∧
      (updateOrderStatus wDB "u1" 1 wCancelBody 100).2.orders.find?
        (fun x => x.mongoId == 1 && x.userId == "u1") = some o' ∧
      o'.cancellationReason = some ⟨some "r", some "c", some 100⟩ := by
  obtain ⟨o', h1, h2, h3, _⟩ := selfUpdate_cancelled_record wDB "u1" 1 wCancelBody 100 wOrder rfl
  exact ⟨o', h1, h2, h3 _ rfl rfl⟩

/-- C4: a self-service update targeting an order id that exists but is owned
by a different user answers 404 and leaves the database unchanged — the
lookup is scoped by both order id and owner. -/
theorem selfUpdate_foreign_order_notFound (db : DB) (callerId : String) (orderId : Nat)
    (body : UpdateBody) (now : Nat) (o : Order)
    (hnodup : (db.orders.map (fun x => x.mongoId)).Nodup)
    (hmem : o ∈ db.orders) (hid : o.mongoId = orderId) (howner : o.userId ≠ callerId) :
    updateOrderStatus db callerId orderId body now = (.error ⟨404, "Order not found"⟩, db) := by
  have hfind : db.orders.find? (fun x => x.mongoId == orderId && x.userId == callerId) = none := by
    rw [List.find?_eq_none]
    intro x hx hpx
    simp only [Bool.and_eq_true, beq_iff_eq] at hpx
    obtain ⟨hx1, hx2⟩ := hpx
    have hxo : x = o := List.inj_on_of_nodup_map hnodup hx hmem (by rw [hx1, hid])
    rw [hxo] at hx2
    exact howner hx2
  unfold updateOrderStatus
  rw [hfind]

/-- Witness for C4 on concrete data: user u2 targeting order 1 (owned by u1)
gets 404 and the store is untouched. -/
theorem selfUpdate_foreign_order_notFound_witness :
    updateOrderStatus wDB "u2" 1 wCancelBody 100 = (.error ⟨404, "Order not found"⟩, wDB) :=
  selfUpdate_foreign_order_notFound wDB "u2" 1 wCancelBody 100 wOrder
    (by decide) (by decide) rfl (by decide)

/-- C7: a password change whose currentPassword does not match the stored
hash answers 400 and leaves the whole store (hence the stored hash)
unchanged; when it matches, the handler reports success and persists the
hash of the new password on that user. -/
theorem changePassword_guard (db : DB) (uid cur new : String) (u : User)
    (hu : findUserById db uid = some u) :
    (bcryptCompare cur u.password = false →
      changePassword db uid cur new = (.error ⟨400, "Current password is incorrect"⟩, db)) ∧
    (bcryptCompare cur u.password = true →
      (changePassword db uid cur new).1 = .ok () ∧
      findUserById (changePassword db uid cur new).2 uid =
        some { u with password := bcryptHash new }) := by
  have hu' : db.users.find? (fun v => v.mongoId == uid) = some u := hu
  constructor
  · intro hcmp
    simp [changePassword, hu, hcmp]
  · intro hcmp
    refine ⟨by simp [changePassword, hu, hcmp], ?_⟩
    have husers : (changePassword db uid cur new).2.users =
        updateFirstBy (fun v => v.mongoId == uid)
          (fun v => { v with password := bcryptHash new }) db.users := by
      simp [changePassword, hu, hcmp]
    unfold findUserById
    rw [husers]
    apply updateFirstBy_find?_self hu'
    simpa using List.find?_some hu'

/-- Witness for C7 on concrete data: for the stored user u1 (password hash of
"pw1"), a wrong current password is rejected without a write, and the right
one persists the hash of "pw2". -/
theorem changePassword_guard_witness :
    changePassword wDB "u1" "wrong" "pw2" = (.error ⟨400, "Current password is incorrect"⟩, wDB) ∧
    (changePassword wDB "u1" "pw1" "pw2").1 = .ok () ∧
    findUserById (changePassword wDB "u1" "pw1" "pw2").2 "u1" =
      some { wUser with password := bcryptHash "pw2" } :=
  ⟨(changePassword_guard wDB "u1" "wrong" "pw2" wUser rfl).1 (by decide),
   (changePassword_guard wDB "u1" "pw1" "pw2" wUser rfl).2 (by decide)⟩

/-- C3: an authenticated order creation stores the caller as the order's
owner — the handler overrides any userId in the payload — and increments
exactly the caller's denormalized order count by 1, leaving every other
user's record (looked up by id) exactly as before. -/
theorem createOrder_owner_count (db : DB) (callerId : String) (body : OrderBody)
    (newMongoId : Nat) (u : User)
    (hu : findUserById db callerId = some u) :
    (createOrder db callerId body newMongoId).1.userId = callerId ∧
    findUserById (createOrder db callerId body newMongoId).2 callerId =
      some { u with orders := u.orders + 1 } ∧
    (∀ v : String, v ≠ callerId →
      findUserById (createOrder db callerId body newMongoId).2 v = findUserById db v) := by
  have hu' : db.users.find? (fun x => x.mongoId == callerId) = some u := hu
  have husers : (createOrder db callerId body newMongoId).2.users =
      updateFirstBy (fun x => x.mongoId == callerId)
        (fun x => { x with orders := x.orders + 1 }) db.users := rfl
  refine ⟨rfl, ?_, ?_⟩
  · unfold findUserById
    rw [husers]
    apply updateFirstBy_find?_self hu'
    simpa using List.find?_some hu'
  · intro v hv
    unfold findUserById
    rw [husers]
    apply updateFirstBy_find?_other
    intro x hpx
    simp only [beq_iff_eq] at hpx
    have hne : (x.mongoId == v) = false := by
      rw [hpx]
      exact beq_eq_false_iff_ne.mpr (fun h => hv h.symm)
    exact ⟨hne, hne⟩

/-- Witness for C3 on concrete data: u1 (0 orders) creates an order whose
payload claims userId "attacker"; the stored order is owned by u1, u1's
count becomes 1, and an unrelated lookup is unchanged. -/
theorem createOrder_owner_count_witness :
    (createOrder wDB "u1" wOrderBody 2).1.userId = "u1" ∧
    findUserById (createOrder wDB "u1" wOrderBody 2).2 "u1" =
      some { wUser with orders := wUser.orders + 1 } ∧
    findUserById (createOrder wDB "u1" wOrderBody 2).2 "u2" = findUserById wDB "u2" := by
  obtain ⟨h1, h2, h3⟩ := createOrder_owner_count wDB "u1" wOrderBody 2 wUser rfl
  exact ⟨h1, h2, h3 "u2" (by decide)⟩

/-- C5: a successful registration (fresh email) followed by a login with the
same email and password succeeds, returns the registered user, and the login
token verifies — at any instant before its expiry — to the identity created
by the registration (the new user id and the registered email). -/
theorem register_login_roundtrip (db : DB) (body : RegisterBody) (secret : String)
    (now : Nat) (newId : String) (r : Jwt × User) (db' : DB) (now' : Nat)
    (hreg : register db body secret now newId = (.ok r, db')) :
    ∃ tok u, login db' body.email body.password secret now' = .ok (tok, u) ∧
      u.mongoId = newId ∧
      ∀ t, t < now' + 24 * 3600 → jwtVerify secret tok t = .ok ⟨newId, body.email⟩ := by
  unfold register at hreg
  cases hfind : findUserByEmail db body.email with
  | some u0 =>
    rw [hfind] at hreg
    simp at hreg
  | none =>
    rw [hfind] at hreg
    have hdb' : db' = { db with users := db.users ++ [regUser body now newId] } :=
      (congrArg Prod.snd hreg).symm
    subst hdb'
    have hfind2 : findUserByEmail { db with users := db.users ++ [regUser body now newId] }
        body.email = some (regUser body now newId) := by
      unfold findUserByEmail at hfind ⊢
      rw [List.find?_append, hfind]
      rw [List.find?_cons_of_pos _ (by simp [regUser])]
      rfl
    refine ⟨jwtSign secret ⟨newId, body.email⟩ now', regUser body now newId, ?_, rfl, ?_⟩
    · unfold login
      rw [hfind2]
      simp [bcryptCompare, regUser]
    · intro t ht
      exact (jwtVerify_jwtSign_iff secret ⟨newId, body.email⟩ now' t).mpr ht

/-- Witness for C5 on concrete data: register b@x.com / "pw" on an empty
store at time 0, log in at time 50, verify the login token at time 100. -/
theorem register_login_roundtrip_witness :
    ∃ tok u, login wRegDB "b@x.com" "pw" "sec" 50 = .ok (tok, u) ∧
      u.mongoId = "u9" ∧
      jwtVerify "sec" tok 100 = .ok ⟨"u9", "b@x.com"⟩ := by
  obtain ⟨tok, u, h1, h2, h3⟩ :=
    register_login_roundtrip emptyDB wRegBody "sec" 0 "u9"
      (jwtSign "sec" ⟨"u9", "b@x.com"⟩ 0, regUser wRegBody 0 "u9") wRegDB 50 rfl
  exact ⟨tok, u, h1, h2, h3 100 (by omega)⟩

/-- Counterexample for C9: with an empty user store, the identity "u1" does
not exist, yet PUT /api/user answers status 200 with a null body — not the
claimed NotFound (404).  (The handler has no null check on the result of
findByIdAndUpdate.) -/
theorem updateProfile_missing_cex :
    findUserById emptyDB "u1" = none ∧
    updateProfile emptyDB "u1" wPatch = ((200, none), emptyDB) :=
  ⟨rfl, rfl⟩

/-- C9 (amended): getProfile answers 404 when the identity no longer exists;
updateProfile instead answers 200 with a null body and leaves the store
unchanged; and on an existing user the patch surface excludes password and
order count — the updated stored user keeps both exactly. -/
theorem profile_ops_spec (db : DB) (uid : String) (p : ProfilePatch) :
    (findUserById db uid = none → getProfile db uid = .error ⟨404, "User not found"⟩) ∧
    (findUserById db uid = none → updateProfile db uid p = ((200, none), db)) ∧
    (∀ u, findUserById db uid = some u →
      findUserById (updateProfile db uid p).2 uid = some (applyPatch u p) ∧
      (applyPatch u p).password = u.password ∧
      (applyPatch u p).orders = u.orders) := by
  refine ⟨?_, ?_, ?_⟩
  · intro h
    unfold getProfile
    rw [h]
  · intro h
    unfold updateProfile
    rw [h]
  · intro u hu
    have hu' : db.users.find? (fun x => x.mongoId == uid) = some u := hu
    have husers : (updateProfile db uid p).2.users =
        updateFirstBy (fun v => v.mongoId == uid) (fun v => applyPatch v p) db.users := by
      unfold updateProfile
      rw [hu]
    refine ⟨?_, rfl, rfl⟩
    unfold findUserById
    rw [husers]
    apply updateFirstBy_find?_self hu'
    simpa using List.find?_some hu'

/-- Witness for C9 (amended) on concrete data: a missing identity gets 404
from getProfile and 200/null from updateProfile; patching u1's first name
keeps the stored password hash and order count. -/
theorem profile_ops_spec_witness :
    getProfile emptyDB "u1" = .error ⟨404, "User not found"⟩ ∧
    updateProfile emptyDB "u1" wPatch = ((200, none), emptyDB) ∧
    findUserById (updateProfile wDB "u1" wPatch).2 "u1" = some (applyPatch wUser wPatch) ∧
    (applyPatch wUser wPatch).password = wUser.password ∧
    (applyPatch wUser wPatch).orders = wUser.orders := by
  obtain ⟨h1, h2, h3⟩ := profile_ops_spec emptyDB "u1" wPatch
  obtain ⟨h4, h5, h6⟩ := (profile_ops_spec wDB "u1" wPatch).2.2 wUser rfl
  exact ⟨h1 rfl, h2 rfl, h4, h5, h6⟩

/-- C10: the admin order update never touches the stored tracking field —
the answered order keeps the previous tracking and the trace of tracking
values across the whole collection is unchanged, whatever the body carries —
while the self-service update on the same body writes the supplied tracking
value. -/
theorem adminUpdate_tracking_frame (db : DB) (orderId : Nat) (body : UpdateBody)
    (now : Nat) (o : Order)
    (hfind : db.orders.find? (fun x => x.mongoId == orderId) = some o) :
    (∃ o', (adminUpdateOrder db orderId body now).1 = .ok o' ∧ o'.tracking = o.tracking) ∧
    (adminUpdateOrder db orderId body now).2.orders.map (fun x => x.tracking) =
      db.orders.map (fun x => x.tracking) ∧
    (∀ callerId o₂ tr,
      db.orders.find? (fun x => x.mongoId == orderId && x.userId == callerId) = some o₂ →
      body.tracking = some tr →
      ∃ o', (updateOrderStatus db callerId orderId body now).1 = .ok o' ∧
        o'.tracking = some tr) := by
  refine ⟨⟨applyAdminUpdate o body now, adminUpdateOrder_found_fst hfind,
    applyAdminUpdate_tracking o body now⟩, ?_, ?_⟩
  · rw [adminUpdateOrder_found_orders hfind]
    exact updateFirstBy_map_eq _ (fun x => applyAdminUpdate_tracking x body now)
  · intro callerId o₂ tr h2 htr
    refine ⟨applySelfUpdate o₂ body now, updateOrderStatus_found_fst h2, ?_⟩
    rw [applySelfUpdate_tracking, htr]

/-- Witness for C10 on concrete data: an admin update carrying
tracking "t1" leaves order 1's stored tracking at "t0", while the
self-service update with the same body writes "t1". -/
theorem adminUpdate_tracking_frame_witness :
    (∃ o', (adminUpdateOrder wDB 1 wTrackBody 100).1 = .ok o' ∧ o'.tracking = wOrder.tracking) ∧
    (adminUpdateOrder wDB 1 wTrackBody 100).2.orders.map (fun x => x.tracking) =
      wDB.orders.map (fun x => x.tracking) ∧
    (∃ o', (updateOrderStatus wDB "u1" 1 wTrackBody 100).1 = .ok o' ∧
      o'.tracking = some "t1") := by
  obtain ⟨h1, h2, h3⟩ := adminUpdate_tracking_frame wDB 1 wTrackBody 100 wOrder rfl
  exact ⟨h1, h2, h3 "u1" wOrder "t1" rfl rfl⟩

/-- Counterexample for C2, in two reachable states.
(1) Create an order, cancel it with a reason at time 100, then move its
status to "Shipped" at time 200: the stored order now has status "Shipped"
while the cancellation record is still present — the claimed iff fails.
(2) POST /api/orders spreads the whole request body into the new document,
so a creation payload carrying a cancellation record (with client-chosen
cancelledAt 999) is stored verbatim on a "Pending" order — both the iff and
the server-assigned-timestamp part fail. -/
theorem cancellation_invariant_cex :
    ((cexDB2.orders.find? (fun x => x.mongoId == 1)).map
        (fun o => (o.status, o.cancellationReason)) =
      some ("Shipped", some ⟨some "r", some "c", some 100⟩)) ∧
    (createOrder emptyDB "u1" cexSmuggleBody 7).1.status = "Pending" ∧
    (createOrder emptyDB "u1" cexSmuggleBody 7).1.cancellationReason =
      some ⟨some "rr", some "cc", some 999⟩ ∧
    (createOrder emptyDB "u1" cexSmuggleBody 7).2.orders.find? (fun x => x.mongoId == 7) =
      some (createOrder emptyDB "u1" cexSmuggleBody 7).1 :=
  ⟨rfl, rfl, rfl, rfl⟩

/-- C2 (amended): on the two status-update paths the cancellation record is
written exactly when the new status is "Cancelled" and a reason is supplied,
with cancelledAt assigned from the server clock (never from the client), and
any other update leaves the existing record untouched — so a stale record
may survive on an order whose status is no longer "Cancelled"; order
creation, by contrast, persists whatever cancellation record the client
supplied, verbatim. -/
theorem cancellation_update_discipline (db : DB) (body : UpdateBody) (now : Nat) :
    (∀ callerId orderId o,
      db.orders.find? (fun x => x.mongoId == orderId && x.userId == callerId) = some o →
      ∃ o', (updateOrderStatus db callerId orderId body now).1 = .ok o' ∧
        o'.cancellationReason =
          match body.status, body.cancellationReason with
          | some s, some c =>
            if s == "Cancelled" then some ⟨c.reason, c.comment, some now⟩
            else o.cancellationReason
          | _, _ => o.cancellationReason) ∧
    (∀ orderId o, db.orders.find? (fun x => x.mongoId == orderId) = some o →
      ∃ o', (adminUpdateOrder db orderId body now).1 = .ok o' ∧
        o'.cancellationReason =
          match body.status, body.cancellationReason with
          | some s, some c =>
            if s == "Cancelled" then some ⟨c.reason, c.comment, some now⟩
            else o.cancellationReason
          | _, _ => o.cancellationReason) ∧
    (∀ callerId obody newMongoId,
      (createOrder db callerId obody newMongoId).1.cancellationReason =
        obody.cancellationReason) := by
  refine ⟨?_, ?_, ?_⟩
  · intro callerId orderId o h
    exact ⟨applySelfUpdate o body now, updateOrderStatus_found_fst h,
      applySelfUpdate_cancellation o body now⟩
  · intro orderId o h
    exact ⟨applyAdminUpdate o body now, adminUpdateOrder_found_fst h,
      applyAdminUpdate_cancellation o body now⟩
  · intro callerId obody newMongoId
    rfl

/-- Witness for C2 (amended) on concrete data: cancelling with a reason (no
client timestamp) stores the record stamped with server time 100; a
non-cancelling admin update keeps the (absent) record; creation stores the
client's record verbatim. -/
theorem cancellation_update_discipline_witness :
    (∃ o', (updateOrderStatus wDB "u1" 1 cexCancelBody 100).1 = .ok o' ∧
      o'.cancellationReason = some ⟨some "r", some "c", some 100⟩) ∧
    (∃ o', (adminUpdateOrder wDB 1 cexShipBody 200).1 = .ok o' ∧
      o'.cancellationReason = wOrder.cancellationReason) ∧
    (createOrder wDB "u1" cexSmuggleBody 7).1.cancellationReason =
      cexSmuggleBody.cancellationReason := by
  obtain ⟨h1, _, _⟩ := cancellation_update_discipline wDB cexCancelBody 100
  obtain ⟨_, h2, h3⟩ := cancellation_update_discipline wDB cexShipBody 200
  obtain ⟨o1, ho1, hc1⟩ := h1 "u1" 1 wOrder rfl
  obtain ⟨o2, ho2, hc2⟩ := h2 1 wOrder rfl
  exact ⟨⟨o1, ho1, by simpa [cexCancelBody] using hc1⟩,
    ⟨o2, ho2, by simpa [cexShipBody] using hc2⟩,
    h3 "u1" cexSmuggleBody 7⟩

end NCart
